import Mathlib

/-!
Shallow embedding of the `ngTemplateOutletTutorial` repository's two
components, translated from `src/src/app/components/list/list.component.ts`:

* `ListComponent` — an Angular component whose inline template iterates
  (`*ngFor="let item of data"`) over the `data` input and, for each item,
  instantiates the `itemTemplate` input via `[ngTemplateOutlet]` with the
  context object `{ $implicit: item }`.
* `CardComponent` — renders `title` as header text when
  `typeof this.title == 'string'`, otherwise instantiates `title` as a
  template via `[ngTemplateOutlet]` (no context object supplied).

Items are `any`-typed in the source, so the embedding is generic over an
item type `α`.  A `TemplateRef` is caller-defined rendering logic
parameterized by the context object it is instantiated with; a
`RenderedView` records one instantiation (which template, with which
context), which is the observable produced by `ngTemplateOutlet`.
-/

/-- A context object attached to an embedded view
(`[ngTemplateOutletContext]`): a finite list of key/value bindings.
The key `$implicit` holds the default (unnamed) slot. -/
structure TemplateContext (α : Type) where
  bindings : List (String × α)
deriving DecidableEq, Repr

/-- Resolution of a `let-` binding in the caller's template against the
context object: look the key up among the bindings. -/
def TemplateContext.lookup {α : Type} (c : TemplateContext α) (k : String) : Option α :=
  c.bindings.lookup k

/-- The context object built by the list component's inline template:
`{ $implicit: item }`. -/
def mkItemContext {α : Type} (item : α) : TemplateContext α :=
  ⟨[("$implicit", item)]⟩

/-- `TemplateRef<HTMLElement>`: an opaque handle on caller-defined
rendering logic.  Its observable behaviour is the text it renders from a
given context object. -/
structure TemplateRef (α : Type) where
  renderText : TemplateContext α → String

/-- A `RenderedView` is one embedded view created by `ngTemplateOutlet`:
the template that was instantiated together with the context object it
was instantiated with. -/
structure RenderedView (α : Type) where
  templateRef : TemplateRef α
  context : TemplateContext α

/-- The Item bound to a view's default/implicit slot. -/
def RenderedView.boundItem {α : Type} (v : RenderedView α) : Option α :=
  v.context.lookup "$implicit"

/-- The text a rendered view displays. -/
def RenderedView.text {α : Type} (v : RenderedView α) : String :=
  v.templateRef.renderText v.context

/-- Semantics of `[ngTemplateOutlet]="tmpl" [ngTemplateOutletContext]="ctx"`:
when the template reference is absent (null/undefined input) no embedded
view is created; otherwise exactly one view is created from the template
and the context. -/
def renderOutlet {α : Type} (tmpl : Option (TemplateRef α)) (ctx : TemplateContext α) :
    List (RenderedView α) :=
  match tmpl with
  | none => []
  | some t => [⟨t, ctx⟩]

/-- `ListComponent`: inputs `data: any[]` and
`itemTemplate: TemplateRef<HTMLElement>`.  The template input may be
absent (an `@Input` the caller never sets), hence `Option`. -/
structure ListComponent (α : Type) where
  data : List α
  itemTemplate : Option (TemplateRef α)

/-- The `*ngFor="let item of data"` traversal: for each item, in data
order, the `ng-container` inside the `li` runs `ngTemplateOutlet` on
`itemTemplate` with context `{ $implicit: item }`, and the resulting
views are attached in that order. -/
def renderItems {α : Type} (tmpl : Option (TemplateRef α)) : List α → List (RenderedView α)
  | [] => []
  | item :: rest => renderOutlet tmpl (mkItemContext item) ++ renderItems tmpl rest

/-- The list component's whole rendered output (the sequence of embedded
views produced by its inline template). -/
def ListComponent.render {α : Type} (c : ListComponent α) : List (RenderedView α) :=
  renderItems c.itemTemplate c.data

/-- The renderer together with the output region it owns, for stating
stateful properties (re-render, idempotence, frame conditions).  Angular
re-runs the template on change detection; the declarative template fully
determines the output region from the inputs. -/
structure RendererEnv (α : Type) where
  comp : ListComponent α
  output : List (RenderedView α)

/-- One change-detection pass: recompute the output region from the
current inputs. -/
def renderStep {α : Type} (e : RendererEnv α) : RendererEnv α :=
  { e with output := e.comp.render }

/-! ### The card component -/

/-- The `title` input of `CardComponent`, typed
`string | TemplateRef<HTMLElement>` in the source. -/
inductive TitleInput (α : Type) where
  | str : String → TitleInput α
  | tmplRef : TemplateRef α → TitleInput α

/-- View of `title` as a string, when it is one. -/
def TitleInput.asString {α : Type} : TitleInput α → Option String
  | .str s => some s
  | .tmplRef _ => none

/-- View of `title` as a template reference, when it is one. -/
def TitleInput.asTemplate {α : Type} : TitleInput α → Option (TemplateRef α)
  | .str _ => none
  | .tmplRef t => some t

/-- `CardComponent`: input `title: string | TemplateRef<HTMLElement>`. -/
structure CardComponent (α : Type) where
  title : TitleInput α

/-- `isTitleAString = () => typeof this.title == 'string'`. -/
def CardComponent.isTitleAString {α : Type} (c : CardComponent α) : Bool :=
  match c.title with
  | .str _ => true
  | .tmplRef _ => false

/-- What the card's header region renders: either interpolated header
text or the views of a template outlet. -/
inductive HeaderOut (α : Type) where
  | headerText : String → HeaderOut α
  | outletViews : List (RenderedView α) → HeaderOut α

/-- Semantics of the card template's header:
`<header *ngIf="isTitleAString(); else titleTemplateWrapper">{{ title }}</header>`
with the wrapper running `[ngTemplateOutlet]="title"` and no
`ngTemplateOutletContext` (an empty context object). -/
def CardComponent.renderHeader {α : Type} (c : CardComponent α) : HeaderOut α :=
  if c.isTitleAString then
    .headerText (c.title.asString.getD "")
  else
    .outletViews (renderOutlet c.title.asTemplate ⟨[]⟩)

/-! ### Basic rendering lemmas -/

/-- With a present template the traversal renders one view per item, in
order, each carrying the `{ $implicit: item }` context. -/
theorem renderItems_some_eq_map {α : Type} (t : TemplateRef α) (data : List α) :
    renderItems (some t) data = data.map (fun item => ⟨t, mkItemContext item⟩) := by
  induction data with
  | nil => rfl
  | cons item rest ih => simp [renderItems, renderOutlet, ih]

/-- With an absent template the traversal renders nothing. -/
theorem renderItems_none_eq_nil {α : Type} (data : List α) :
    renderItems (none : Option (TemplateRef α)) data = [] := by
  induction data with
  | nil => rfl
  | cons item rest ih => simp [renderItems, renderOutlet, ih]

/-- The implicit slot of the context built for an item holds that item. -/
theorem mkItemContext_lookup_implicit {α : Type} (item : α) :
    (mkItemContext item).lookup "$implicit" = some item := rfl

/-! ### Concrete demo data (the tutorial's scenario) -/

/-- The shape of the items used in the tutorial's parent template:
`{ id: 4, name: 'Laptop' }`, `{ id: 5, name: 'Phone' }`. -/
structure DemoItem where
  id : Nat
  name : String
deriving DecidableEq, Repr

/-- The caller-supplied item template of the scenario: renders the text
consisting of the implicit item's id, a separator, and its name. -/
def demoTemplate : TemplateRef DemoItem :=
  ⟨fun ctx =>
    match ctx.lookup "$implicit" with
    | some it => toString it.id ++ " - " ++ it.name
    | none => ""⟩

/-- A trivial concrete template over `Nat` items, for instantiating the
generic theorems. -/
def natTemplate : TemplateRef Nat :=
  ⟨fun _ => ""⟩

/-! ### The claims -/

/-- Claim C1: for every item sequence and every template handle,
rendering produces exactly one view per item, and the view at each
position is bound (via the default/implicit slot) to the item at the
same position. -/
theorem render_count_and_position_binding {α : Type} (data : List α) (t : TemplateRef α) :
    (ListComponent.render ⟨data, some t⟩).length = data.length ∧
    ∀ i : Nat, ((ListComponent.render ⟨data, some t⟩)[i]?).map RenderedView.boundItem
      = (data[i]?).map some := by
  constructor
  · simp [ListComponent.render, renderItems_some_eq_map]
  · intro i
    simp only [ListComponent.render, renderItems_some_eq_map, List.getElem?_map,
      Option.map_map]
    cases data[i]? with
    | none => rfl
    | some item => rfl

/-- Claim C2: rendering with an absent template produces an empty output
(zero views), whatever the item sequence; `render` is total, so no crash
occurs. -/
theorem render_absent_template_is_empty {α : Type} (data : List α) :
    ListComponent.render ⟨data, none⟩ = [] ∧
    (ListComponent.render ⟨data, none⟩).length = 0 := by
  constructor
  · exact renderItems_none_eq_nil data
  · simp [ListComponent.render, renderItems_none_eq_nil]

/-- Claim C3: rendering is the ordered traversal of `data`: the output is
exactly the sequence, in `data` order, of one instantiation of the
template per item with the context object whose `$implicit` slot is that
item. -/
theorem render_is_ordered_traversal {α : Type} (data : List α) (t : TemplateRef α) :
    ListComponent.render ⟨data, some t⟩
      = data.map (fun item => ⟨t, ⟨[("$implicit", item)]⟩⟩) := by
  simpa [mkItemContext] using renderItems_some_eq_map t data

/-- Claim C4: rendering the empty sequence produces zero views, whatever
the template input (present or absent). -/
theorem render_empty_sequence {α : Type} (tmpl : Option (TemplateRef α)) :
    ListComponent.render ⟨[], tmpl⟩ = [] := rfl

/-- Claim C5: a change-detection pass is idempotent: with unchanged
inputs, running `render` a second time leaves the output region exactly
as the first run left it. -/
theorem renderStep_idempotent {α : Type} (e : RendererEnv α) :
    renderStep (renderStep e) = renderStep e := rfl

/-- Claim C6: a render pass only writes the output region the renderer
owns: the component's inputs (`data` and `itemTemplate`) are left
unchanged, and the only field that changes is `output`, which is set to
the recomputed views. -/
theorem renderStep_frame_condition {α : Type} (e : RendererEnv α) :
    (renderStep e).comp = e.comp ∧
    (renderStep e).comp.data = e.comp.data ∧
    (renderStep e).comp.itemTemplate = e.comp.itemTemplate ∧
    (renderStep e).output = e.comp.render :=
  ⟨rfl, rfl, rfl, rfl⟩

/-- Claim C7: after replacing `data` with a shorter sequence and
re-rendering, the surplus views are gone: the output has exactly one
view per new item, each bound to the item at the same position of the
new sequence. -/
theorem render_shorter_replacement {α : Type} (oldData newData : List α)
    (t : TemplateRef α) (vs : List (RenderedView α))
    (_hprev : vs = ListComponent.render ⟨oldData, some t⟩)
    (_hshorter : newData.length ≤ oldData.length) :
    (renderStep ⟨⟨newData, some t⟩, vs⟩).output.length = newData.length ∧
    ∀ i : Nat, (((renderStep ⟨⟨newData, some t⟩, vs⟩).output)[i]?).map RenderedView.boundItem
      = (newData[i]?).map some := by
  constructor
  · simp [renderStep, ListComponent.render, renderItems_some_eq_map]
  · intro i
    simp only [renderStep, ListComponent.render, renderItems_some_eq_map,
      List.getElem?_map, Option.map_map]
    cases newData[i]? with
    | none => rfl
    | some item => rfl

/-- Claim C7 witness: replacing the two-item sequence by a one-item
sequence leaves a single view bound to the remaining item. -/
theorem render_shorter_replacement_witness :
    (renderStep ⟨⟨[1], some natTemplate⟩,
        ListComponent.render ⟨[1, 2], some natTemplate⟩⟩).output.length
      = ([1] : List Nat).length ∧
    ∀ i : Nat,
      (((renderStep ⟨⟨[1], some natTemplate⟩,
          ListComponent.render ⟨[1, 2], some natTemplate⟩⟩).output)[i]?).map
          RenderedView.boundItem
        = (([1] : List Nat)[i]?).map some :=
  render_shorter_replacement [1, 2] [1] natTemplate _ rfl (by decide)

/-- Claim C8: on the tutorial's concrete input (items with ids 4 and 5
named Laptop and Phone, template rendering id, separator, name) the
output is exactly two views, texted accordingly, in order. -/
theorem demo_scenario_output :
    (ListComponent.render ⟨[⟨4, "Laptop"⟩, ⟨5, "Phone"⟩], some demoTemplate⟩).length = 2 ∧
    (ListComponent.render ⟨[⟨4, "Laptop"⟩, ⟨5, "Phone"⟩], some demoTemplate⟩).map
        RenderedView.text
      = ["4 - Laptop", "5 - Phone"] := by
  constructor <;> rfl

/-- Claim C9: every view the list component renders carries a context
object with exactly one binding — the default `$implicit` key holding
the current item — so any other (named) key resolves to no value. -/
theorem context_is_exactly_implicit {α : Type} (data : List α) (t : TemplateRef α)
    (v : RenderedView α) (hv : v ∈ ListComponent.render ⟨data, some t⟩) :
    ∃ item ∈ data, v.context.bindings = [("$implicit", item)] ∧
      v.context.lookup "$implicit" = some item ∧
      ∀ k : String, k ≠ "$implicit" → v.context.lookup k = none := by
  simp only [ListComponent.render] at hv
  rw [renderItems_some_eq_map] at hv
  rcases List.mem_map.mp hv with ⟨item, hmem, hveq⟩
  subst hveq
  refine ⟨item, hmem, rfl, rfl, ?_⟩
  intro k hk
  have hne : (k == "$implicit") = false := beq_eq_false_iff_ne.mpr hk
  simp [TemplateContext.lookup, mkItemContext, List.lookup, hne]

/-- Claim C9 witness: the single view rendered for the one-item sequence
carries exactly the implicit binding. -/
theorem context_is_exactly_implicit_witness :
    ∃ item ∈ ([0] : List Nat),
      (RenderedView.mk natTemplate (mkItemContext 0)).context.bindings
        = [("$implicit", item)] ∧
      (RenderedView.mk natTemplate (mkItemContext 0)).context.lookup "$implicit" = some item ∧
      ∀ k : String, k ≠ "$implicit" →
        (RenderedView.mk natTemplate (mkItemContext 0)).context.lookup k = none :=
  context_is_exactly_implicit [0] natTemplate ⟨natTemplate, mkItemContext 0⟩
    (by simp [ListComponent.render, renderItems, renderOutlet])

/-- Claim C10: the card's title dispatch is a total two-way branch on the
runtime type of `title`: exactly when `title` is a string it renders as
header text, otherwise `title` is instantiated as a template in the
header's place, and exactly one of the two branches renders. -/
theorem card_title_dispatch {α : Type} (c : CardComponent α) :
    (∀ s, c.title = TitleInput.str s →
        c.isTitleAString = true ∧ c.renderHeader = HeaderOut.headerText s) ∧
    (∀ t, c.title = TitleInput.tmplRef t →
        c.isTitleAString = false ∧
        c.renderHeader = HeaderOut.outletViews [⟨t, ⟨[]⟩⟩]) ∧
    ((∃ s, c.renderHeader = HeaderOut.headerText s) ↔ (∃ s, c.title = TitleInput.str s)) ∧
    ((∃ vs, c.renderHeader = HeaderOut.outletViews vs)
      ↔ (∃ t, c.title = TitleInput.tmplRef t)) := by
  obtain ⟨title⟩ := c
  cases title with
  | str s =>
      refine ⟨?_, ?_, ?_, ?_⟩ <;>
        simp [CardComponent.renderHeader, CardComponent.isTitleAString,
          TitleInput.asString, TitleInput.asTemplate, renderOutlet]
  | tmplRef t =>
      refine ⟨?_, ?_, ?_, ?_⟩ <;>
        simp [CardComponent.renderHeader, CardComponent.isTitleAString,
          TitleInput.asString, TitleInput.asTemplate, renderOutlet]

/-- Claim C10 witness: a concrete string title renders as header text. -/
theorem card_title_dispatch_witness :
    CardComponent.isTitleAString (⟨TitleInput.str "Hello"⟩ : CardComponent Nat) = true ∧
    CardComponent.renderHeader (⟨TitleInput.str "Hello"⟩ : CardComponent Nat)
      = HeaderOut.headerText "Hello" :=
  (card_title_dispatch ⟨TitleInput.str "Hello"⟩).1 "Hello" rfl
